import Mathlib

/-!
A formal model of the ticketing-system server (src/server.js): subsidized
bus-pass issuance (`POST /apply`), applicant lookup by phone
(`GET /verify/:phone`), lookup by pass identifier
(`GET /getApplicant/:passId`), and ticket booking (`POST /bookTicket`)
over a document store holding two collections, `applications` and
`tickets`.

Request-body fields arrive as optional strings; JavaScript truthiness
(`!x`, `x || y`) treats both an absent field and the empty string as
falsy, which the model captures with `Option String` and the `truthy`
predicate.  The store is modelled as in-memory lists in insertion order;
`findOne` is first-match search, and the store-assigned `_id` is the
record's index at insertion time (unique by construction).
-/

namespace TicketingSystem

/-- JavaScript truthiness of an optional string request-body field:
`undefined` and `""` are falsy, every other string is truthy. -/
def truthy : Option String → Bool
  | none => false
  | some s => s != ""

/-- JavaScript `a || b` restricted to optional string fields: returns `a`
when `a` is truthy, otherwise `b` (used by the phone-field fallback chain
`req.body.phone || req.body.whatsapp || req.body.number`). -/
def jsOr (a b : Option String) : Option String :=
  if truthy a then a else b

/-- A JavaScript number as far as this model needs it: either `NaN` or an
exact rational value. -/
inductive JSNum where
  | nan : JSNum
  | num : ℚ → JSNum
deriving DecidableEq

/-- Value of a nonempty list of decimal digit characters. -/
def decDigitsVal (cs : List Char) : ℕ :=
  cs.foldl (fun acc c => acc * 10 + (c.toNat - 48)) 0

/-- Optional leading sign of a numeric string. -/
def parseSign : List Char → ℚ × List Char
  | '-' :: r => (-1, r)
  | '+' :: r => (1, r)
  | r => (1, r)

/-- Modelled JavaScript builtin: string-to-number coercion as performed by
`Number(s)`, restricted to the syntax this system can meet: the empty
string coerces to `0`, an optional sign followed by decimal digits with an
optional fractional part yields that value, and anything else is
non-numeric (`none`, i.e. `NaN`).  Exponents, hex literals, `Infinity` and
whitespace trimming are outside the modelled subset. -/
def jsParseNumber (s : String) : Option ℚ :=
  match s.toList with
  | [] => some 0
  | cs =>
    let sr := parseSign cs
    let ip := sr.2.takeWhile (·.isDigit)
    let rest := sr.2.dropWhile (·.isDigit)
    match rest with
    | [] => if ip.isEmpty then none else some (sr.1 * decDigitsVal ip)
    | '.' :: fr =>
      if fr.all (·.isDigit) && (!ip.isEmpty || !fr.isEmpty) then
        some (sr.1 * ((decDigitsVal ip : ℚ) + (decDigitsVal fr : ℚ) / (10 : ℚ) ^ fr.length))
      else none
    | _ => none

/-- A request-body value for the `amount` field: absent (`undefined`), a
string, or a JSON number. -/
inductive JSVal where
  | undef : JSVal
  | str : String → JSVal
  | num : ℚ → JSVal
deriving DecidableEq

/-- Modelled JavaScript builtin: `Number(v)`.  `Number(undefined)` is
`NaN`; a string goes through string-to-number coercion; a number is
itself. -/
def jsToNumber : JSVal → JSNum
  | .undef => .nan
  | .str s =>
    match jsParseNumber s with
    | some q => .num q
    | none => .nan
  | .num q => .num q

/-- Age breakdown stored inside an applicant document
(src/server.js lines 92-96). -/
structure Age where
  years : Option String
  months : Option String
  days : Option String
deriving DecidableEq

/-- An applicant document as assembled and inserted by `POST /apply`
(src/server.js lines 85-115).  `recordRef` models the store-assigned
`_id` (`result.insertedId`); in this model it is the record's index in
the `applications` collection at insertion time, unique by construction.
Timestamps are abstract `Nat` clock values. -/
structure Applicant where
  recordRef : Nat
  passId : String
  qrCode : String
  name : Option String
  fatherName : Option String
  dob : Option String
  gender : Option String
  age : Age
  aadhar : Option String
  phone : Option String
  whatsapp : Option String
  number : Option String
  email : Option String
  photo : String
  aadharFile : String
  address : Option String
  district : Option String
  mandal : Option String
  village : Option String
  pincode : Option String
  city : Option String
  passType : Option String
  paymentMode : String
  deliveryMode : String
  counter : Option String
  createdAt : Nat
deriving DecidableEq

/-- A ticket document as assembled and inserted by `POST /bookTicket`
(src/server.js lines 185-192).  `applicantId` holds the hex string the
validated `ObjectId` was constructed from. -/
structure TicketDoc where
  applicantId : String
  source : String
  destination : String
  paymentType : String
  amount : JSNum
  bookedAt : Nat
deriving DecidableEq

/-- The document store: the `applications` and `tickets` collections, in
insertion order. -/
structure DB where
  applications : List Applicant
  tickets : List TicketDoc
deriving DecidableEq

/-- The empty store. -/
def emptyDB : DB := ⟨[], []⟩

/-- Modelled external collaborator: `QRCode.toDataURL`, an opaque
injective encoding of the `passId` string into a data-URL artifact,
computed once at issuance and stored with the record. -/
def qrEncode (s : String) : String :=
  "data:image/png;base64," ++ s

/-- The random draw inside `generateUniquePassId`
(src/server.js line 65): `Math.floor(10000000 + Math.random() * 90000000)`,
where `r` stands for the value returned by `Math.random()`
(a number with `0 ≤ r < 1`). -/
def passIdNum (r : ℚ) : ℤ :=
  ⌊(10000000 : ℚ) + r * 90000000⌋

/-- Pass-identifier generator (src/server.js lines 64-67): formats the
random draw as `TSRTC-<digits>`.  Despite its name it performs no
uniqueness check against existing records. -/
def generateUniquePassId (r : ℚ) : String :=
  "TSRTC-" ++ toString (passIdNum r)

/-- Request body of `POST /apply`: every field the handler reads, each an
optional string; `photoFile` and `aadharUpload` are the filenames of the
two optional uploads already persisted by the file-storage collaborator. -/
structure ApplyRequest where
  name : Option String
  fatherName : Option String
  dob : Option String
  gender : Option String
  ageYears : Option String
  ageMonths : Option String
  ageDays : Option String
  aadhar : Option String
  phone : Option String
  whatsapp : Option String
  number : Option String
  email : Option String
  address : Option String
  district : Option String
  mandal : Option String
  village : Option String
  pincode : Option String
  city : Option String
  passType : Option String
  counter : Option String
  photoFile : Option String
  aadharUpload : Option String
deriving DecidableEq

/-- The applicant document `POST /apply` assembles (src/server.js lines
83-115): the phone fallback chain
`phoneNumber = req.body.phone || req.body.whatsapp || req.body.number`,
back-filling of `whatsapp` and `number` with `phoneNumber`, the freshly
generated pass identifier with its QR artifact, and the fixed
`paymentMode`/`deliveryMode` classification values. -/
def applyDoc (db : DB) (req : ApplyRequest) (r : ℚ) (now : Nat) : Applicant :=
  let passId := generateUniquePassId r
  let phoneNumber := jsOr req.phone (jsOr req.whatsapp req.number)
  { recordRef := db.applications.length
    passId := passId
    qrCode := qrEncode passId
    name := req.name
    fatherName := req.fatherName
    dob := req.dob
    gender := req.gender
    age := ⟨req.ageYears, req.ageMonths, req.ageDays⟩
    aadhar := req.aadhar
    phone := phoneNumber
    whatsapp := jsOr req.whatsapp phoneNumber
    number := jsOr req.number phoneNumber
    email := req.email
    photo := match req.photoFile with
      | some f => "/uploads/" ++ f
      | none => ""
    aadharFile := match req.aadharUpload with
      | some f => "/uploads/" ++ f
      | none => ""
    address := req.address
    district := req.district
    mandal := req.mandal
    village := req.village
    pincode := req.pincode
    city := req.city
    passType := req.passType
    paymentMode := "FREE SCHEME"
    deliveryMode := "Bus Pass Counter"
    counter := req.counter
    createdAt := now }

/-- Response of `POST /apply` (src/server.js lines 119-125): the inserted
id, the pass identifier and the QR artifact. -/
structure ApplyResponse where
  id : Nat
  passId : String
  qrCode : String
deriving DecidableEq

/-- Handler of `POST /apply` (src/server.js lines 72-130): assembles the
applicant document, inserts it into `applications`, and returns the
inserted id with the pass identifier and QR artifact.  The handler
performs no validation of identity fields. -/
def applyRoute (db : DB) (req : ApplyRequest) (r : ℚ) (now : Nat) :
    ApplyResponse × DB :=
  let doc := applyDoc db req r now
  (⟨doc.recordRef, doc.passId, doc.qrCode⟩,
   { db with applications := db.applications ++ [doc] })

/-- The phone-lookup predicate of `GET /verify/:phone`
(src/server.js lines 138-140): a document matches when its `phone`,
`whatsapp` or `number` field equals the queried string exactly. -/
def phoneMatches (a : Applicant) (q : String) : Bool :=
  a.phone == some q || a.whatsapp == some q || a.number == some q

/-- Outcome of `GET /verify/:phone`. -/
inductive VerifyResult where
  | foundId : Nat → VerifyResult
  | notFound : VerifyResult
deriving DecidableEq

/-- Handler of `GET /verify/:phone` (src/server.js lines 135-146):
first-match `findOne` over the three phone fields; returns the matched
record's id, or a not-found outcome. -/
def verifyRoute (db : DB) (q : String) : VerifyResult :=
  match db.applications.find? (fun a => phoneMatches a q) with
  | some a => .foundId a.recordRef
  | none => .notFound

/-- Outcome of `GET /getApplicant/:passId`: the full matched document, or
the 404 not-found response `{success:false}`. -/
inductive GetApplicantResult where
  | found : Applicant → GetApplicantResult
  | notFound404 : GetApplicantResult
deriving DecidableEq

/-- Handler of `GET /getApplicant/:passId` (src/server.js lines 165-173):
exact-match `findOne` on `passId`; a miss is answered with a 404
not-found response, never a thrown error (the handler is total on this
model's state). -/
def getApplicant (db : DB) (p : String) : GetApplicantResult :=
  match db.applications.find? (fun a => a.passId == p) with
  | some a => .found a
  | none => .notFound404

/-- Hexadecimal digit as accepted by the MongoDB `ObjectId`
constructor's 24-character hex-string form. -/
def isHexChar (c : Char) : Bool :=
  c.isDigit || (('a' ≤ c) && (c ≤ 'f')) || (('A' ≤ c) && (c ≤ 'F'))

/-- Modelled driver behaviour: `new ObjectId(s)` on a string succeeds
exactly when `s` is a 24-character hexadecimal string, and throws
otherwise (src/server.js line 186 constructs the ticket's reference this
way; the throw is caught by the handler's catch block and answered with a
500 error). -/
def isValidObjectIdStr (s : String) : Bool :=
  s.length == 24 && s.toList.all isHexChar

/-- Request body of `POST /bookTicket` (src/server.js line 180). -/
structure BookRequest where
  applicantId : Option String
  source : Option String
  destination : Option String
  paymentType : Option String
  amount : JSVal
deriving DecidableEq

/-- Outcome of `POST /bookTicket`: the missing-fields rejection
`{success:false, msg:"Missing fields"}`, the catch block's 500 error
(reached when `ObjectId` construction throws), or success carrying the
inserted ticket document. -/
inductive BookResult where
  | missingFields : BookResult
  | serverError : BookResult
  | booked : TicketDoc → BookResult
deriving DecidableEq

/-- The `ticketDoc` object assembled by `POST /bookTicket`
(src/server.js lines 185-192): the destructured body fields and the fare
`paymentType === "PAID" ? Number(amount) : 0`. -/
def bookedTicketDoc (req : BookRequest) (now : Nat) : TicketDoc :=
  { applicantId := req.applicantId.getD ""
    source := req.source.getD ""
    destination := req.destination.getD ""
    paymentType := req.paymentType.getD ""
    amount := if req.paymentType == some "PAID" then jsToNumber req.amount
      else .num 0
    bookedAt := now }

/-- Handler of `POST /bookTicket` (src/server.js lines 178-199): rejects
when any of `applicantId`, `source`, `destination`, `paymentType` is
falsy; otherwise constructs `new ObjectId(applicantId)` (throwing — hence
`serverError` — on a malformed string), computes the fare, and appends
the ticket document to the `tickets` collection.  The handler never reads
the `applications` collection. -/
def bookTicket (db : DB) (req : BookRequest) (now : Nat) : BookResult × DB :=
  if truthy req.applicantId && truthy req.source &&
      truthy req.destination && truthy req.paymentType then
    if isValidObjectIdStr (req.applicantId.getD "") then
      (.booked (bookedTicketDoc req now),
       { db with tickets := db.tickets ++ [bookedTicketDoc req now] })
    else (.serverError, db)
  else (.missingFields, db)

/-- Spec-side fare rule, as the spec words it (spec §3, §4.2):
`amount = paymentType == PAID ? max(0, numeric(amount)) : 0` — the
numeric amount clamped to be non-negative.  Stated here only to be
compared against the handler's actual fare computation. -/
def specClampedAmount : JSNum → JSNum
  | .nan => .nan
  | .num q => .num (max 0 q)

/-- A well-formed 24-character hexadecimal `ObjectId` string used in the
concrete instances below. -/
def sampleHexId : String := "0123456789abcdef01234567"

/-- Concrete booking: well-formed reference, free payment, no amount. -/
def reqOrphanBooking : BookRequest :=
  ⟨some sampleHexId, some "KPHB", some "MGBS", some "FREE", JSVal.undef⟩

/-- Concrete booking: paid payment with a negative string amount. -/
def reqNegativeAmount : BookRequest :=
  ⟨some sampleHexId, some "KPHB", some "MGBS", some "PAID", JSVal.str "-5"⟩

/-- Concrete booking: present but malformed applicant reference. -/
def reqMalformedRef : BookRequest :=
  ⟨some "xyz", some "KPHB", some "MGBS", some "PAID", JSVal.undef⟩

/-- Concrete booking: the `source` field is absent. -/
def reqMissingSource : BookRequest :=
  ⟨some sampleHexId, none, some "MGBS", some "FREE", JSVal.undef⟩

/-- Concrete booking: paid payment with string amount `50`. -/
def reqPaidFifty : BookRequest :=
  ⟨some sampleHexId, some "KPHB", some "MGBS", some "PAID", JSVal.str "50"⟩

/-- Concrete booking: paid payment with the amount field absent. -/
def reqPaidNoAmount : BookRequest :=
  ⟨some sampleHexId, some "KPHB", some "MGBS", some "PAID", JSVal.undef⟩

/-- Concrete booking: unrecognized payment type with a supplied amount. -/
def reqFreeWithAmount : BookRequest :=
  ⟨some sampleHexId, some "KPHB", some "MGBS", some "CASH", JSVal.str "75"⟩

/-- Concrete issuance request with every body field absent. -/
def emptyApplyReq : ApplyRequest :=
  ⟨none, none, none, none, none, none, none, none, none, none, none,
   none, none, none, none, none, none, none, none, none, none, none⟩

/-- Concrete issuance request supplying only the `phone` field. -/
def phoneOnlyApplyReq : ApplyRequest :=
  { emptyApplyReq with phone := some "9000000001" }

/-- Store after one issuance against the empty store with random draw 0. -/
def dbOneIssued : DB := (applyRoute emptyDB emptyApplyReq 0 0).2

/-- Store after a second issuance with the SAME random draw 0 — the
collision `Math.random()` can produce, since `generateUniquePassId`
checks nothing against existing records. -/
def dbTwoIssuedSamePass : DB := (applyRoute dbOneIssued emptyApplyReq 0 0).2

/-- Response of the second issuance drawing the duplicate value. -/
def respSecondIssue : ApplyResponse := (applyRoute dbOneIssued emptyApplyReq 0 0).1

/-!  Theorems.  -/

/-- First-match search ignores a leading run of non-matching elements. -/
theorem find?_append_left_none {α : Type} (p : α → Bool) (l₁ l₂ : List α)
    (h : ∀ a ∈ l₁, p a = false) : (l₁ ++ l₂).find? p = l₂.find? p := by
  induction l₁ with
  | nil => rfl
  | cons x xs ih =>
    rw [List.cons_append,
      List.find?_cons_of_neg _ (by simp [h x (List.mem_cons_self x xs)])]
    exact ih fun a ha => h a (List.mem_cons_of_mem x ha)

/-- First-match search returns the head when the head matches. -/
theorem find?_cons_pos {α : Type} (p : α → Bool) (x : α) (l : List α)
    (hx : p x = true) : (x :: l).find? p = some x := by
  simp [List.find?, hx]

/-- JavaScript `a || b` keeps `a` when `a` is truthy. -/
theorem jsOr_of_truthy (a b : Option String) (h : truthy a = true) :
    jsOr a b = a := by
  simp [jsOr, h]

/-- JavaScript `a || b` falls through to `b` when `a` is falsy. -/
theorem jsOr_of_falsy (a b : Option String) (h : truthy a = false) :
    jsOr a b = b := by
  simp [jsOr, h]

/-- Truthiness of a JavaScript `||` is the disjunction of truthiness. -/
theorem truthy_jsOr (a b : Option String) :
    truthy (jsOr a b) = (truthy a || truthy b) := by
  unfold jsOr
  cases hq : truthy a <;> simp [hq]

/-- A falsy phone field (absent or empty) never matches a non-empty
lookup string. -/
theorem falsy_field_no_match (o : Option String) (q : String)
    (ho : truthy o = false) (hq : q ≠ "") : (o == some q) = false := by
  cases o with
  | none => rfl
  | some s =>
    have hs : s = "" := by simpa [truthy] using ho
    subst hs
    simpa using fun hcontra => hq hcontra.symm

/-- The random draw of the pass-identifier generator at `r = 0`. -/
theorem generateUniquePassId_zero : generateUniquePassId 0 = "TSRTC-10000000" := by
  unfold generateUniquePassId passIdNum
  rw [show (10000000 : ℚ) + 0 * 90000000 = ((10000000 : ℤ) : ℚ) by norm_num,
    Int.floor_intCast]
  decide

/-- C6: whenever any of `applicantRef`, `source`, `destination`,
`paymentType` is absent or empty, `bookTicket` returns the failure
result `{success:false, msg:"Missing fields"}` and writes nothing: the
store is unchanged. -/
theorem c6_missing_field_rejected_nothing_persisted (db : DB)
    (req : BookRequest) (now : Nat)
    (h : truthy req.applicantId = false ∨ truthy req.source = false ∨
      truthy req.destination = false ∨ truthy req.paymentType = false) :
    (bookTicket db req now).1 = BookResult.missingFields ∧
    (bookTicket db req now).2 = db := by
  have hc : (truthy req.applicantId && truthy req.source &&
      truthy req.destination && truthy req.paymentType) = false := by
    rcases h with h | h | h | h <;> simp [h]
  unfold bookTicket
  rw [hc]
  exact ⟨rfl, rfl⟩

/-- C6 witness: a booking with `source` absent is rejected with the
missing-fields result and the store is untouched. -/
theorem c6_missing_field_rejected_nothing_persisted_witness :
    (bookTicket emptyDB reqMissingSource 0).1 = BookResult.missingFields ∧
    (bookTicket emptyDB reqMissingSource 0).2 = emptyDB :=
  c6_missing_field_rejected_nothing_persisted emptyDB reqMissingSource 0
    (Or.inr (Or.inl rfl))

/-- C3: for every booking whose `paymentType` is any value other than the
`"PAID"` sentinel (in particular any non-empty such value, e.g. `"FREE"`
or an unrecognized string), a created ticket's `amount` is exactly `0`,
regardless of the caller-supplied amount. -/
theorem c3_non_paid_payment_amount_zero (db : DB) (req : BookRequest)
    (now : Nat) (pt : String) (hp : req.paymentType = some pt)
    (hne : pt ≠ "PAID") :
    ∀ t, (bookTicket db req now).1 = BookResult.booked t →
      t.amount = JSNum.num 0 := by
  intro t ht
  have hbeq : (req.paymentType == some "PAID") = false := by
    rw [hp]
    simp [hne]
  unfold bookTicket at ht
  split at ht
  · split at ht
    · simp only [Prod.fst] at ht
      injection ht with h
      rw [← h]
      unfold bookedTicketDoc
      rw [hbeq]
      rfl
    · exact absurd ht (by simp)
  · exact absurd ht (by simp)

/-- C3 witness: booking with `paymentType = "CASH"` and supplied amount
`"75"` stores amount `0`. -/
theorem c3_non_paid_payment_amount_zero_witness :
    (bookedTicketDoc reqFreeWithAmount 0).amount = JSNum.num 0 :=
  c3_non_paid_payment_amount_zero emptyDB reqFreeWithAmount 0 "CASH" rfl
    (by decide) (bookedTicketDoc reqFreeWithAmount 0) rfl

/-- C2 counterexample: booking with `paymentType = "PAID"` and
caller-supplied amount `"-5"` persists a ticket whose stored amount is
`-5` — the raw coercion `Number("-5")` — while the claimed clamped fare
`max(0, numeric("-5"))` is `0`.  The stored amount is negative, refuting
both the clamping equation and the non-negativity consequence. -/
theorem c2_counterexample_negative_amount_stored :
    (bookTicket emptyDB reqNegativeAmount 0).1 =
      BookResult.booked (bookedTicketDoc reqNegativeAmount 0) ∧
    (bookedTicketDoc reqNegativeAmount 0).amount = JSNum.num (-5) ∧
    specClampedAmount (jsToNumber reqNegativeAmount.amount) = JSNum.num 0 ∧
    JSNum.num (-5) ≠ JSNum.num 0 := by
  have hval : jsToNumber (JSVal.str "-5") = JSNum.num ((-1 : ℚ) * ((5 : ℕ) : ℚ)) := rfl
  refine ⟨rfl, ?_, ?_, ?_⟩
  · show jsToNumber (JSVal.str "-5") = JSNum.num (-5)
    rw [hval]
    norm_num
  · show specClampedAmount (jsToNumber (JSVal.str "-5")) = JSNum.num 0
    rw [hval]
    unfold specClampedAmount
    norm_num
  · intro h
    injection h with h
    norm_num at h

/-- C2 (amended): for every booking with `paymentType = "PAID"`, a
created ticket's stored amount is the raw numeric coercion
`Number(amount)` with no non-negativity clamp; in particular, when the
caller-supplied amount is a numeric value `q` (of any sign, including
`q ≥ 0`), the stored amount is exactly `q`. -/
theorem c2_paid_amount_is_raw_coercion (db : DB) (req : BookRequest)
    (now : Nat) (hp : req.paymentType = some "PAID") :
    ∀ t, (bookTicket db req now).1 = BookResult.booked t →
      t.amount = jsToNumber req.amount := by
  intro t ht
  have hbeq : (req.paymentType == some "PAID") = true := by
    rw [hp]
    rfl
  unfold bookTicket at ht
  split at ht
  · split at ht
    · simp only [Prod.fst] at ht
      injection ht with h
      rw [← h]
      unfold bookedTicketDoc
      rw [hbeq]
      rfl
    · exact absurd ht (by simp)
  · exact absurd ht (by simp)

/-- C2 (amended) witness: booking with `paymentType = "PAID"` and amount
`"50"` stores amount `Number("50") = 50`. -/
theorem c2_paid_amount_is_raw_coercion_witness :
    (bookedTicketDoc reqPaidFifty 0).amount = jsToNumber reqPaidFifty.amount ∧
    jsToNumber reqPaidFifty.amount = JSNum.num 50 := by
  constructor
  · exact c2_paid_amount_is_raw_coercion emptyDB reqPaidFifty 0 rfl
      (bookedTicketDoc reqPaidFifty 0) rfl
  · show jsToNumber (JSVal.str "50") = JSNum.num 50
    have hval : jsToNumber (JSVal.str "50") = JSNum.num ((1 : ℚ) * ((50 : ℕ) : ℚ)) := rfl
    rw [hval]
    norm_num

/-- C9 counterexample: a booking whose `applicantRef` is present
(`"xyz"`), with `source`, `destination` present and
`paymentType = "PAID"` and the amount absent, does NOT succeed: the
`ObjectId` construction throws and the handler answers with the catch
block's 500 error, persisting nothing. -/
theorem c9_counterexample_malformed_ref_errors :
    (bookTicket emptyDB reqMalformedRef 0).1 = BookResult.serverError ∧
    (bookTicket emptyDB reqMalformedRef 0).2 = emptyDB :=
  ⟨rfl, rfl⟩

/-- C9 (amended): for every booking with a well-formed `applicantRef`,
`source` and `destination` present, `paymentType = "PAID"`, and an
amount that coerces to `NaN` (absent or non-numeric), the booking still
succeeds and appends a ticket whose stored amount is `NaN`; no
`InvalidAmount` or other validation error is produced for the amount
field. -/
theorem c9_nan_amount_accepted (db : DB) (req : BookRequest) (now : Nat)
    (ha : truthy req.applicantId = true) (hs : truthy req.source = true)
    (hd : truthy req.destination = true)
    (hp : req.paymentType = some "PAID")
    (hv : isValidObjectIdStr (req.applicantId.getD "") = true)
    (hnan : jsToNumber req.amount = JSNum.nan) :
    (bookTicket db req now).1 = BookResult.booked (bookedTicketDoc req now) ∧
    (bookedTicketDoc req now).amount = JSNum.nan ∧
    (bookTicket db req now).2.tickets = db.tickets ++ [bookedTicketDoc req now] := by
  have hpt : truthy req.paymentType = true := by
    rw [hp]
    rfl
  have hbeq : (req.paymentType == some "PAID") = true := by
    rw [hp]
    rfl
  have hcond : (truthy req.applicantId && truthy req.source &&
      truthy req.destination && truthy req.paymentType) = true := by
    rw [ha, hs, hd, hpt]
    rfl
  have hamount : (bookedTicketDoc req now).amount = JSNum.nan := by
    unfold bookedTicketDoc
    rw [hbeq]
    simpa using hnan
  have hbook : bookTicket db req now =
      (.booked (bookedTicketDoc req now),
       { db with tickets := db.tickets ++ [bookedTicketDoc req now] }) := by
    unfold bookTicket
    rw [hcond, hv]
    simp
  rw [hbook]
  exact ⟨rfl, hamount, rfl⟩

/-- C9 (amended) witness: booking with a well-formed reference,
`paymentType = "PAID"` and no amount succeeds and stores `NaN`. -/
theorem c9_nan_amount_accepted_witness :
    (bookTicket emptyDB reqPaidNoAmount 0).1 =
      BookResult.booked (bookedTicketDoc reqPaidNoAmount 0) ∧
    (bookedTicketDoc reqPaidNoAmount 0).amount = JSNum.nan ∧
    (bookTicket emptyDB reqPaidNoAmount 0).2.tickets =
      emptyDB.tickets ++ [bookedTicketDoc reqPaidNoAmount 0] :=
  c9_nan_amount_accepted emptyDB reqPaidNoAmount 0 rfl rfl rfl rfl (by decide) rfl

/-- C1 counterexample: against an EMPTY applicant store — so the supplied
`applicantRef` dereferences to no applicant record whatsoever — a
booking with a well-formed reference succeeds and a ticket carrying that
dangling reference IS persisted.  `bookTicket` never reads the applicant
store, so referential integrity is not enforced at write time. -/
theorem c1_counterexample_orphan_ticket_persisted :
    emptyDB.applications = [] ∧
    (bookTicket emptyDB reqOrphanBooking 0).1 =
      BookResult.booked (bookedTicketDoc reqOrphanBooking 0) ∧
    (bookTicket emptyDB reqOrphanBooking 0).2.tickets =
      [bookedTicketDoc reqOrphanBooking 0] ∧
    (bookedTicketDoc reqOrphanBooking 0).applicantId = sampleHexId :=
  ⟨rfl, rfl, rfl, rfl⟩

/-- C1 (amended): the only reference check `bookTicket` performs is
well-formedness — when `applicantRef` is not a valid 24-character hex
`ObjectId` string, the construction throws, the handler returns a
failure (500 error or missing-fields), and no ticket is persisted.
Existence of the referenced applicant is never checked (see the
counterexample: a well-formed dangling reference is persisted). -/
theorem c1_malformed_reference_never_persists (db : DB) (req : BookRequest)
    (now : Nat)
    (hmal : isValidObjectIdStr (req.applicantId.getD "") = false) :
    (bookTicket db req now).2 = db ∧
    ∀ t, (bookTicket db req now).1 ≠ BookResult.booked t := by
  unfold bookTicket
  rw [hmal]
  split
  · exact ⟨rfl, fun t h => by simp at h⟩
  · exact ⟨rfl, fun t h => by simp at h⟩

/-- C1 (amended) witness: booking with the malformed reference `"xyz"`
persists nothing and is not a success. -/
theorem c1_malformed_reference_never_persists_witness :
    (bookTicket emptyDB reqMalformedRef 0).2 = emptyDB ∧
    ∀ t, (bookTicket emptyDB reqMalformedRef 0).1 ≠ BookResult.booked t :=
  c1_malformed_reference_never_persists emptyDB reqMalformedRef 0 (by decide)

/-- C4: when at least one of `phone`, `whatsapp`, `number` is supplied
non-empty, the persisted applicant record's `phone` is the first
non-empty supplied value in the priority order `phone`, `whatsapp`,
`number`; each of `whatsapp`/`number` left unspecified is back-filled
with that resolved value; and all three stored fields are non-empty. -/
theorem c4_phone_backfill (db : DB) (req : ApplyRequest) (r : ℚ) (now : Nat)
    (h : truthy req.phone = true ∨ truthy req.whatsapp = true ∨
      truthy req.number = true) :
    (applyRoute db req r now).2.applications =
      db.applications ++ [applyDoc db req r now] ∧
    (truthy req.phone = true → (applyDoc db req r now).phone = req.phone) ∧
    (truthy req.phone = false → truthy req.whatsapp = true →
      (applyDoc db req r now).phone = req.whatsapp) ∧
    (truthy req.phone = false → truthy req.whatsapp = false →
      (applyDoc db req r now).phone = req.number) ∧
    (req.whatsapp = none →
      (applyDoc db req r now).whatsapp = (applyDoc db req r now).phone) ∧
    (req.number = none →
      (applyDoc db req r now).number = (applyDoc db req r now).phone) ∧
    truthy (applyDoc db req r now).phone = true ∧
    truthy (applyDoc db req r now).whatsapp = true ∧
    truthy (applyDoc db req r now).number = true := by
  have hphone : (applyDoc db req r now).phone =
      jsOr req.phone (jsOr req.whatsapp req.number) := rfl
  have hwhats : (applyDoc db req r now).whatsapp =
      jsOr req.whatsapp (jsOr req.phone (jsOr req.whatsapp req.number)) := rfl
  have hnum : (applyDoc db req r now).number =
      jsOr req.number (jsOr req.phone (jsOr req.whatsapp req.number)) := rfl
  have htp : truthy (jsOr req.phone (jsOr req.whatsapp req.number)) = true := by
    rcases h with h1 | h1 | h1 <;> simp [truthy_jsOr, h1]
  refine ⟨rfl, ?_, ?_, ?_, ?_, ?_, ?_, ?_, ?_⟩
  · intro hp
    rw [hphone, jsOr_of_truthy _ _ hp]
  · intro hp hw
    rw [hphone, jsOr_of_falsy _ _ hp, jsOr_of_truthy _ _ hw]
  · intro hp hw
    rw [hphone, jsOr_of_falsy _ _ hp, jsOr_of_falsy _ _ hw]
  · intro hw
    rw [hwhats, hphone, hw, jsOr_of_falsy none _ rfl]
  · intro hn
    rw [hnum, hphone, hn, jsOr_of_falsy none _ rfl]
  · rw [hphone]
    exact htp
  · rw [hwhats, truthy_jsOr, htp, Bool.or_true]
  · rw [hnum, truthy_jsOr, htp, Bool.or_true]

/-- C4 witness: issuing with only `phone = "9000000001"` stores that
value in all three phone fields (so a later lookup by the `whatsapp`
value resolves the applicant). -/
theorem c4_phone_backfill_witness :
    (applyDoc emptyDB phoneOnlyApplyReq 0 0).phone = some "9000000001" ∧
    (applyDoc emptyDB phoneOnlyApplyReq 0 0).whatsapp = some "9000000001" ∧
    (applyDoc emptyDB phoneOnlyApplyReq 0 0).number = some "9000000001" ∧
    phoneMatches (applyDoc emptyDB phoneOnlyApplyReq 0 0) "9000000001" = true := by
  have T := c4_phone_backfill emptyDB phoneOnlyApplyReq 0 0 (Or.inl rfl)
  have hph : (applyDoc emptyDB phoneOnlyApplyReq 0 0).phone = some "9000000001" :=
    T.2.1 rfl
  have hwh : (applyDoc emptyDB phoneOnlyApplyReq 0 0).whatsapp = some "9000000001" := by
    rw [T.2.2.2.2.1 rfl, hph]
  have hnu : (applyDoc emptyDB phoneOnlyApplyReq 0 0).number = some "9000000001" := by
    rw [T.2.2.2.2.2.1 rfl, hph]
  refine ⟨hph, hwh, hnu, ?_⟩
  rw [phoneMatches, hph]
  simp

/-- C10: when none of `phone`, `whatsapp`, `number` is supplied
non-empty, issuance still succeeds — the record is persisted with all
three phone fields falsy (absent or empty) — and no non-empty
phone-based lookup string can match the record. -/
theorem c10_no_phone_issuance_succeeds_unresolvable (db : DB)
    (req : ApplyRequest) (r : ℚ) (now : Nat)
    (hp : truthy req.phone = false) (hw : truthy req.whatsapp = false)
    (hn : truthy req.number = false) :
    (applyRoute db req r now).2.applications =
      db.applications ++ [applyDoc db req r now] ∧
    truthy (applyDoc db req r now).phone = false ∧
    truthy (applyDoc db req r now).whatsapp = false ∧
    truthy (applyDoc db req r now).number = false ∧
    ∀ q : String, q ≠ "" →
      phoneMatches (applyDoc db req r now) q = false := by
  have hchain : jsOr req.phone (jsOr req.whatsapp req.number) = req.number := by
    rw [jsOr_of_falsy _ _ hp, jsOr_of_falsy _ _ hw]
  have hphone : (applyDoc db req r now).phone = req.number := by
    rw [show (applyDoc db req r now).phone =
      jsOr req.phone (jsOr req.whatsapp req.number) from rfl, hchain]
  have hwhats : (applyDoc db req r now).whatsapp = req.number := by
    rw [show (applyDoc db req r now).whatsapp =
      jsOr req.whatsapp (jsOr req.phone (jsOr req.whatsapp req.number)) from rfl,
      jsOr_of_falsy _ _ hw, hchain]
  have hnum : (applyDoc db req r now).number = req.number := by
    rw [show (applyDoc db req r now).number =
      jsOr req.number (jsOr req.phone (jsOr req.whatsapp req.number)) from rfl,
      jsOr_of_falsy _ _ hn, hchain]
  refine ⟨rfl, ?_, ?_, ?_, ?_⟩
  · rw [hphone]
    exact hn
  · rw [hwhats]
    exact hn
  · rw [hnum]
    exact hn
  · intro q hq
    rw [phoneMatches, hphone, hwhats, hnum, falsy_field_no_match _ _ hn hq]
    rfl

/-- C10 witness: issuing with no phone field at all persists a record
whose three phone fields are falsy and which the phone lookup predicate
never matches for the sample number. -/
theorem c10_no_phone_issuance_succeeds_unresolvable_witness :
    (applyRoute emptyDB emptyApplyReq 0 0).2.applications =
      emptyDB.applications ++ [applyDoc emptyDB emptyApplyReq 0 0] ∧
    truthy (applyDoc emptyDB emptyApplyReq 0 0).phone = false ∧
    phoneMatches (applyDoc emptyDB emptyApplyReq 0 0) "9000000001" = false := by
  have T := c10_no_phone_issuance_succeeds_unresolvable emptyDB emptyApplyReq 0 0
    rfl rfl rfl
  exact ⟨T.1, T.2.1, T.2.2.2.2 "9000000001" (by decide)⟩

/-- C7: `GET /getApplicant/:passId` is total on the store: when no
applicant record carries the queried `passId` it answers with the 404
not-found outcome (a returned result, not a thrown error), and when a
match exists it returns the full matched applicant record. -/
theorem c7_pass_lookup_notfound_or_full_record (db : DB) (p : String) :
    ((∀ a ∈ db.applications, a.passId ≠ p) →
      getApplicant db p = GetApplicantResult.notFound404) ∧
    ((∃ a ∈ db.applications, a.passId = p) →
      ∃ b, getApplicant db p = GetApplicantResult.found b ∧
        b ∈ db.applications ∧ b.passId = p) := by
  constructor
  · intro h
    have hfind : db.applications.find? (fun a => a.passId == p) = none := by
      rw [List.find?_eq_none]
      intro x hx
      simp [h x hx]
    unfold getApplicant
    rw [hfind]
  · rintro ⟨a, ha, hpa⟩
    rcases hf : db.applications.find? (fun a => a.passId == p) with _ | b
    · rw [List.find?_eq_none] at hf
      exact absurd (by simp [hpa]) (hf a ha)
    · refine ⟨b, ?_, List.mem_of_find?_eq_some hf, ?_⟩
      · unfold getApplicant
        rw [hf]
      · simpa using List.find?_some hf

/-- C7 witness: against a store holding one issued applicant (whose pass
identifier is `TSRTC-10000000`), looking up the absent identifier
`TSRTC-00000000` yields the 404 not-found outcome. -/
theorem c7_pass_lookup_notfound_or_full_record_witness :
    getApplicant dbOneIssued "TSRTC-00000000" = GetApplicantResult.notFound404 :=
  (c7_pass_lookup_notfound_or_full_record dbOneIssued "TSRTC-00000000").1
    (by
      intro a ha
      have hmem : a = applyDoc emptyDB emptyApplyReq 0 0 := by
        simpa [dbOneIssued, applyRoute, emptyDB] using ha
      subst hmem
      rw [show (applyDoc emptyDB emptyApplyReq 0 0).passId =
        generateUniquePassId 0 from rfl, generateUniquePassId_zero]
      decide)

/-- C5 counterexample: two issuances drawing the same random value (a
collision `Math.random()` permits, and which `generateUniquePassId`
does nothing to prevent) store two records with the same `passId`.  The
second issuance returns `recordRef = 1`, yet `resolveByPassId` on the
returned `passId` yields the FIRST record (`recordRef = 0`), not the
record the second issuance created. -/
theorem c5_counterexample_duplicate_passid :
    respSecondIssue.id = 1 ∧
    respSecondIssue.passId = (applyRoute emptyDB emptyApplyReq 0 0).1.passId ∧
    getApplicant dbTwoIssuedSamePass respSecondIssue.passId =
      GetApplicantResult.found (applyDoc emptyDB emptyApplyReq 0 0) ∧
    (applyDoc emptyDB emptyApplyReq 0 0).recordRef = 0 ∧
    (applyDoc dbOneIssued emptyApplyReq 0 0).recordRef = 1 ∧
    getApplicant dbTwoIssuedSamePass respSecondIssue.passId ≠
      GetApplicantResult.found (applyDoc dbOneIssued emptyApplyReq 0 0) := by
  have hpred : ((fun a => a.passId == respSecondIssue.passId)
      (applyDoc emptyDB emptyApplyReq 0 0)) = true := by
    show ((applyDoc emptyDB emptyApplyReq 0 0).passId == respSecondIssue.passId) = true
    rw [show respSecondIssue.passId =
      (applyDoc emptyDB emptyApplyReq 0 0).passId from rfl, beq_self_eq_true]
  have hget : getApplicant dbTwoIssuedSamePass respSecondIssue.passId =
      GetApplicantResult.found (applyDoc emptyDB emptyApplyReq 0 0) := by
    unfold getApplicant
    rw [show dbTwoIssuedSamePass.applications =
      [applyDoc emptyDB emptyApplyReq 0 0,
       applyDoc dbOneIssued emptyApplyReq 0 0] from rfl,
      find?_cons_pos (fun a => a.passId == respSecondIssue.passId)
        (applyDoc emptyDB emptyApplyReq 0 0)
        [applyDoc dbOneIssued emptyApplyReq 0 0] hpred]
  refine ⟨rfl, rfl, hget, rfl, rfl, ?_⟩
  intro hcontra
  rw [hget] at hcontra
  injection hcontra with hdoc
  have hrefs := congrArg Applicant.recordRef hdoc
  rw [show (applyDoc emptyDB emptyApplyReq 0 0).recordRef = 0 from rfl,
    show (applyDoc dbOneIssued emptyApplyReq 0 0).recordRef = 1 from rfl] at hrefs
  exact absurd hrefs (by decide)

/-- C5 (amended): provided no applicant already in the store carries the
freshly drawn `passId` (identifier uniqueness, which the generator
itself does not guarantee), `resolveByPassId` on the `passId` issuance
returned yields exactly the record issuance persisted — in particular
the same `recordRef` issuance returned. -/
theorem c5_issue_then_resolve_roundtrip (db : DB) (req : ApplyRequest)
    (r : ℚ) (now : Nat)
    (huniq : ∀ a ∈ db.applications, a.passId ≠ generateUniquePassId r) :
    getApplicant (applyRoute db req r now).2 (applyRoute db req r now).1.passId =
      GetApplicantResult.found (applyDoc db req r now) ∧
    (applyDoc db req r now).recordRef = (applyRoute db req r now).1.id := by
  constructor
  · have hfalse : ∀ a ∈ db.applications,
        (fun a => a.passId == (applyRoute db req r now).1.passId) a = false := by
      intro a ha
      show (a.passId == (applyRoute db req r now).1.passId) = false
      rw [show (applyRoute db req r now).1.passId =
        generateUniquePassId r from rfl]
      simp [huniq a ha]
    have hpred : ((applyDoc db req r now).passId ==
        (applyRoute db req r now).1.passId) = true := by
      rw [show (applyRoute db req r now).1.passId =
        (applyDoc db req r now).passId from rfl, beq_self_eq_true]
    have hfind : (applyRoute db req r now).2.applications.find?
        (fun a => a.passId == (applyRoute db req r now).1.passId) =
        some (applyDoc db req r now) := by
      rw [show (applyRoute db req r now).2.applications =
        db.applications ++ [applyDoc db req r now] from rfl,
        find?_append_left_none _ _ _ hfalse,
        find?_cons_pos (fun a => a.passId == (applyRoute db req r now).1.passId)
          (applyDoc db req r now) [] hpred]
    unfold getApplicant
    rw [hfind]
  · rfl

/-- C5 (amended) witness: against the empty store, a single issuance
followed by `resolveByPassId` on the returned identifier yields the
persisted record with the returned `recordRef`. -/
theorem c5_issue_then_resolve_roundtrip_witness :
    getApplicant (applyRoute emptyDB emptyApplyReq 0 0).2
      (applyRoute emptyDB emptyApplyReq 0 0).1.passId =
      GetApplicantResult.found (applyDoc emptyDB emptyApplyReq 0 0) ∧
    (applyDoc emptyDB emptyApplyReq 0 0).recordRef =
      (applyRoute emptyDB emptyApplyReq 0 0).1.id :=
  c5_issue_then_resolve_roundtrip emptyDB emptyApplyReq 0 0
    (by intro a ha; simp [emptyDB] at ha)

/-- C8: for every random draw `r` with `0 ≤ r < 1`, the generated pass
identifier is `TSRTC-` followed by the decimal representation of a
number in the inclusive range `[10000000, 99999999]` — exactly 8
decimal digits, never fewer and never 9. -/
theorem c8_passid_format (r : ℚ) (h0 : 0 ≤ r) (h1 : r < 1) :
    generateUniquePassId r = "TSRTC-" ++ Nat.repr (passIdNum r).toNat ∧
    10000000 ≤ (passIdNum r).toNat ∧ (passIdNum r).toNat ≤ 99999999 ∧
    (Nat.digits 10 (passIdNum r).toNat).length = 8 := by
  have hlo : (10000000 : ℤ) ≤ passIdNum r := by
    rw [passIdNum, Int.le_floor]
    push_cast
    nlinarith
  have hhi : passIdNum r < 100000000 := by
    rw [passIdNum, Int.floor_lt]
    push_cast
    nlinarith
  have hnonneg : (0 : ℤ) ≤ passIdNum r := le_trans (by norm_num) hlo
  have hcast : passIdNum r = ((passIdNum r).toNat : ℤ) :=
    (Int.toNat_of_nonneg hnonneg).symm
  have hlon : 10000000 ≤ (passIdNum r).toNat := by omega
  have hhin : (passIdNum r).toNat ≤ 99999999 := by omega
  refine ⟨?_, hlon, hhin, ?_⟩
  · rw [generateUniquePassId, hcast]
    rfl
  · rw [Nat.digits_len 10 _ (by norm_num) (by omega)]
    have hlog : Nat.log 10 (passIdNum r).toNat = 7 := by
      apply Nat.log_eq_of_pow_le_of_lt_pow
      · have e7 : (10 : ℕ) ^ 7 = 10000000 := by norm_num
        omega
      · have e8 : (10 : ℕ) ^ (7 + 1) = 100000000 := by norm_num
        omega
    omega

/-- C8 witness: the draw `r = 1/2` yields a correctly formatted 8-digit
pass identifier. -/
theorem c8_passid_format_witness :
    generateUniquePassId (1/2) = "TSRTC-" ++ Nat.repr (passIdNum (1/2)).toNat ∧
    10000000 ≤ (passIdNum (1/2)).toNat ∧ (passIdNum (1/2)).toNat ≤ 99999999 ∧
    (Nat.digits 10 (passIdNum (1/2)).toNat).length = 8 :=
  c8_passid_format (1/2) (by norm_num) (by norm_num)

end TicketingSystem
